import Mathlib

/-!
Shallow embedding of the API-key rotation/retry gateway of this repository
(src/api/generate.js and src/api/describe.js).  JavaScript strings are Lean
strings; `undefined`/`null` fields are `Option`; machine behaviour that matters
(JS truthiness, substring tests, modular cursor arithmetic) is modelled
explicitly.  Each handler is a pure function of the parsed key pool, the
module-level cursor `currentKeyIndex`, the parsed request, and an oracle
`upstream : Nat → Upstream ρ` giving the outcome of the j-th upstream
invocation made during the call.  A handler returns
(result-if-the-handler-returned, final cursor, number of upstream invocations);
the `Option` on the result models the JS function falling off the loop and
returning `undefined`.
-/

namespace ImageAI

/-- Prefix test on character lists (helper for the JS `String.prototype.includes`). -/
def charsPrefix : List Char → List Char → Bool
  | [], _ => true
  | _ :: _, [] => false
  | a :: as, b :: bs => a == b && charsPrefix as bs

/-- Occurrence of `pat` as a contiguous substring, on character lists. -/
def charsIncludes (pat : List Char) : List Char → Bool
  | [] => charsPrefix pat []
  | s@(_ :: rest) => charsPrefix pat s || charsIncludes pat rest

/-- JS `s.includes(pat)`. -/
def strIncludes (s pat : String) : Bool := charsIncludes pat.toList s.toList

/-- JS truthiness of a possibly-undefined string: `undefined` and `""` are falsy. -/
def jsTruthy : Option String → Bool
  | none => false
  | some s => s != ""

/-- `process.env.API_KEYS_POOL || process.env.API_KEY || ''`
(generate.js / describe.js line 9): first truthy value, else the empty string. -/
def configString (pool fallback : Option String) : String :=
  if jsTruthy pool then pool.getD ""
  else if jsTruthy fallback then fallback.getD ""
  else ""

/-- generate.js / describe.js lines 9-12: `.split(',').map(k => k.trim()).filter(Boolean)`.
`filter(Boolean)` keeps exactly the non-empty strings. -/
def parseApiKeys (config : String) : List String :=
  ((config.splitOn ",").map String.trim).filter (fun k => k != "")

/-- The module-level `apiKeys` constant as a function of the two environment variables. -/
def apiKeysFromEnv (pool fallback : Option String) : List String :=
  parseApiKeys (configString pool fallback)

/-- Spec-side rendering of the configuration sentence: the sequence of
comma-separated entries with surrounding whitespace trimmed and empty entries
discarded. -/
def specParsedPool (config : String) : List String :=
  ((config.splitOn ",").map String.trim).filter (fun e => e != "")

/-- `getNextApiKey` (both files, lines 16-21).  Input: the pool and the current
`currentKeyIndex`; output: the selected key (`none` models the JS `null` return
on an empty pool, and an out-of-range `apiKeys[currentKeyIndex]` yielding
`undefined`), and the updated `currentKeyIndex`. -/
def getNextApiKey (apiKeys : List String) (currentKeyIndex : Nat) :
    Option String × Nat :=
  if apiKeys.length == 0 then (none, currentKeyIndex)
  else (apiKeys.get? currentKeyIndex, (currentKeyIndex + 1) % apiKeys.length)

/-- JS `!apiKey`: true for `null`/`undefined` and for the empty string. -/
def jsFalsyKey : Option String → Bool
  | none => true
  | some s => s == ""

/-- `part.inlineData` payload of an upstream response part. -/
structure InlineData where
  data : String
  mimeType : String
  deriving DecidableEq, Repr

/-- One part of an upstream generate response candidate. -/
structure RespPart where
  inlineData : Option InlineData
  text : Option String
  deriving DecidableEq, Repr

/-- One candidate of an upstream generate response; `parts` models
`candidate.content?.parts || []` (a missing content is the empty list). -/
structure Candidate where
  finishReason : Option String
  parts : List RespPart
  deriving DecidableEq, Repr

/-- An upstream generate response (`response.candidates` may be missing: empty list). -/
structure GenResponse where
  candidates : List Candidate
  deriving DecidableEq, Repr

/-- An upstream describe response; only `response.text` is consulted. -/
structure DescResponse where
  text : Option String
  deriving DecidableEq, Repr

/-- Outcome of one upstream invocation: a resolved response, or a rejected
promise carrying `error.message`. -/
inductive Upstream (ρ : Type) where
  | ok (resp : ρ)
  | threw (message : String)
  deriving DecidableEq, Repr

/-- JS `toLowerCase` restricted to ASCII (all classifier markers are ASCII);
written over the character list so it evaluates by kernel reduction. -/
def jsToLower (s : String) : String := String.mk (s.toList.map Char.toLower)

/-- generate.js line 104: `error.message && (error.message.includes('429') ||
error.message.toLowerCase().includes('resource has been exhausted'))`. -/
def isRateLimitErrorGen (message : String) : Bool :=
  message != "" &&
    (strIncludes message "429" ||
      strIncludes (jsToLower message) "resource has been exhausted")

/-- describe.js line 68: `error.message?.toLowerCase() || ''`. -/
def descErrorMessage (message : String) : String := jsToLower message

/-- describe.js line 69. -/
def isRateLimitErrorDesc (message : String) : Bool :=
  strIncludes (descErrorMessage message) "429" ||
    strIncludes (descErrorMessage message) "resource has been exhausted"

/-- describe.js line 70. -/
def isInvalidApiKeyErrorDesc (message : String) : Bool :=
  strIncludes (descErrorMessage message) "api key not valid" ||
    strIncludes (descErrorMessage message) "permission denied"

/-- describe.js line 71. -/
def isGoogleServerErrorDesc (message : String) : Bool :=
  strIncludes (descErrorMessage message) "500" ||
    strIncludes (descErrorMessage message) "503" ||
    strIncludes (descErrorMessage message) "service unavailable"

/-- describe.js line 73: the disjunction deciding whether the catch block
continues to the next credential. -/
def isRetryableDesc (message : String) : Bool :=
  isRateLimitErrorDesc message || isInvalidApiKeyErrorDesc message ||
    isGoogleServerErrorDesc message

/-- HTTP results of the generate handler; each constructor is one `res.status(..).json(..)` site. -/
inductive GenResult where
  | methodNotAllowed
  | configError
  | validationError
  | safetyBlocked
  | noImage (msg : String)
  | success (base64 mimeType : String)
  | rateLimitExhausted
  | unexpectedError (msg : String)
  deriving DecidableEq, Repr

/-- The HTTP status code attached to each generate result (generate.js response sites). -/
def GenResult.status : GenResult → Nat
  | .methodNotAllowed => 405
  | .configError => 500
  | .validationError => 400
  | .safetyBlocked => 400
  | .noImage _ => 500
  | .success _ _ => 200
  | .rateLimitExhausted => 429
  | .unexpectedError _ => 500

/-- HTTP results of the describe handler. -/
inductive DescResult where
  | methodNotAllowed
  | configError
  | validationError
  | success (description : String)
  | rateLimitExhausted
  | unexpectedError (msg : String)
  deriving DecidableEq, Repr

/-- The HTTP status code attached to each describe result (describe.js response sites). -/
def DescResult.status : DescResult → Nat
  | .methodNotAllowed => 405
  | .configError => 500
  | .validationError => 400
  | .success _ => 200
  | .rateLimitExhausted => 429
  | .unexpectedError _ => 500

/-- JS `part.text` as used by `responseText += part.text` guarded by truthiness:
a missing or empty text contributes nothing. -/
def partTextStr (p : RespPart) : String :=
  match p.text with
  | some t => t
  | none => ""

/-- generate.js lines 79-89: scan the candidate parts; stop at the first part
with `part.inlineData && part.inlineData.data` (truthy data), otherwise
accumulate `part.text` into `responseText`.  Returns (imageData, responseText). -/
def scanParts (acc : String) : List RespPart → Option InlineData × String
  | [] => (none, acc)
  | p :: rest =>
    match p.inlineData with
    | some d =>
      if d.data != "" then (some d, acc)
      else scanParts (acc ++ partTextStr p) rest
    | none => scanParts (acc ++ partTextStr p) rest

/-- Spec-side: the first inline-data part of a parts list (the first part
carrying inline data with non-empty bytes), and its payload. -/
def firstInlinePart (parts : List RespPart) : Option InlineData :=
  (parts.find? (fun p =>
    match p.inlineData with
    | some d => d.data != ""
    | none => false)).bind RespPart.inlineData

/-- generate.js lines 59-101: the body of the `try` block once the upstream
call resolved.  `.error` models a `throw` that reaches the catch at line 103
(the only such throw is the missing-candidate one at line 68). -/
def genTryBody (resp : GenResponse) : Except String GenResult :=
  match resp.candidates.head? with
  | none => .error "No response from the API. The request might have been blocked."
  | some candidate =>
    if candidate.finishReason == some "SAFETY" then
      .ok .safetyBlocked
    else
      match scanParts "" candidate.parts with
      | (some d, _) => .ok (.success d.data d.mimeType)
      | (none, responseText) =>
        if responseText != "" then
          .ok (.noImage ("API returned text instead of an image: \"" ++
            responseText.trim ++ "\""))
        else
          .ok (.noImage "API did not return an image. It might have been blocked due to safety settings or a prompt issue.")

/-- One generate attempt: a rejected upstream call and a throw inside the try
body reach the same catch block. -/
def genAttempt (o : Upstream GenResponse) : Except String GenResult :=
  match o with
  | .ok resp => genTryBody resp
  | .threw msg => .error msg

/-- generate.js lines 114-116: the non-retryable branch of the catch
(`error.message || "An unknown error occurred"`). -/
def genUnexpected (msg : String) : GenResult :=
  .unexpectedError ("Failed to generate content: " ++
    (if msg != "" then msg else "An unknown error occurred"))

/-- describe.js lines 52-65: the body of the `try` block once the upstream call
resolved; an empty/missing `response.text` throws "Empty response from API."
into the catch. -/
def descTryBody (resp : DescResponse) : Except String DescResult :=
  if jsTruthy resp.text then .ok (.success (resp.text.getD ""))
  else .error "Empty response from API."

/-- One describe attempt. -/
def descAttempt (o : Upstream DescResponse) : Except String DescResult :=
  match o with
  | .ok resp => descTryBody resp
  | .threw msg => .error msg

/-- describe.js line 88: the non-retryable branch of the catch. -/
def descUnexpected (msg : String) : DescResult :=
  .unexpectedError ("Failed to generate description: " ++ msg)

/-- The retry loop shared by generate.js lines 42-119 and describe.js lines
42-91: `for (let i = 0; i < totalKeys; i++)` with `getNextApiKey`, the
`if (!apiKey) continue` guard, one upstream attempt per iteration, and the
catch block that continues on a retryable error (returning 429 when
`i === totalKeys - 1`) and returns `unexpected` otherwise.  `fuel` is the
number of remaining iterations (`totalKeys - i`), `i` the loop counter, `idx`
the current `currentKeyIndex`, `calls` the number of upstream invocations so
far; `attempt j` is the combined outcome of the (j+1)-th upstream invocation.
A `none` result models the loop finishing and the handler returning
`undefined`. -/
def rotateLoop {ρ : Type} (apiKeys : List String) (attempt : Nat → Except String ρ)
    (retryable : String → Bool) (rateLimited : ρ) (unexpected : String → ρ) :
    Nat → Nat → Nat → Nat → Option ρ × Nat × Nat
  | 0, _, idx, calls => (none, idx, calls)
  | fuel + 1, i, idx, calls =>
    match getNextApiKey apiKeys idx with
    | (keyOpt, idx2) =>
      if jsFalsyKey keyOpt then
        rotateLoop apiKeys attempt retryable rateLimited unexpected fuel (i + 1) idx2 calls
      else
        match attempt calls with
        | .ok r => (some r, idx2, calls + 1)
        | .error msg =>
          if retryable msg then
            if i == apiKeys.length - 1 then (some rateLimited, idx2, calls + 1)
            else rotateLoop apiKeys attempt retryable rateLimited unexpected fuel (i + 1) idx2 (calls + 1)
          else (some (unexpected msg), idx2, calls + 1)

/-- Opaque inbound image attachment, forwarded unchanged to the upstream call. -/
abbrev ImagePart := Unit

/-- Parsed inbound request of the generate handler. -/
structure GenRequest where
  method : String
  prompt : Option String
  imageParts : Option (List ImagePart)

/-- generate.js line 37: `!prompt || !imageParts || !Array.isArray(imageParts)
|| imageParts.length === 0` (a present field is an array in this model). -/
def genInvalidBody (req : GenRequest) : Bool :=
  !(jsTruthy req.prompt) || req.imageParts == none || req.imageParts == some []

/-- generate.js handler, lines 25-120. -/
def generateHandler (apiKeys : List String) (currentKeyIndex : Nat)
    (req : GenRequest) (upstream : Nat → Upstream GenResponse) :
    Option GenResult × Nat × Nat :=
  if req.method != "POST" then (some .methodNotAllowed, currentKeyIndex, 0)
  else if apiKeys.length == 0 then (some .configError, currentKeyIndex, 0)
  else if genInvalidBody req then (some .validationError, currentKeyIndex, 0)
  else rotateLoop apiKeys (fun j => genAttempt (upstream j)) isRateLimitErrorGen
    .rateLimitExhausted genUnexpected apiKeys.length 0 currentKeyIndex 0

/-- Parsed inbound request of the describe handler. -/
structure DescRequest where
  method : String
  imagePart : Option ImagePart

/-- describe.js line 37: `if (!imagePart)` (a present attachment object is truthy). -/
def descInvalidBody (req : DescRequest) : Bool :=
  req.imagePart == none

/-- describe.js handler, lines 25-92. -/
def describeHandler (apiKeys : List String) (currentKeyIndex : Nat)
    (req : DescRequest) (upstream : Nat → Upstream DescResponse) :
    Option DescResult × Nat × Nat :=
  if req.method != "POST" then (some .methodNotAllowed, currentKeyIndex, 0)
  else if apiKeys.length == 0 then (some .configError, currentKeyIndex, 0)
  else if descInvalidBody req then (some .validationError, currentKeyIndex, 0)
  else rotateLoop apiKeys (fun j => descAttempt (upstream j)) isRetryableDesc
    .rateLimitExhausted descUnexpected apiKeys.length 0 currentKeyIndex 0

/-! ### Helper lemmas about the retry loop -/

section LoopLemmas

variable {ρ : Type} (apiKeys : List String) (attempt : Nat → Except String ρ)
  (retryable : String → Bool) (rateLimited : ρ) (unexpected : String → ρ)

lemma getNextApiKey_of_lt {idx : Nat} (hidx : idx < apiKeys.length) :
    getNextApiKey apiKeys idx =
      (apiKeys.get? idx, (idx + 1) % apiKeys.length) := by
  have hlen : 0 < apiKeys.length := lt_of_le_of_lt (Nat.zero_le idx) hidx
  simp [getNextApiKey, Nat.pos_iff_ne_zero.mp hlen]

lemma jsFalsyKey_of_goodPool (hkeys : ∀ k ∈ apiKeys, k ≠ "") {idx : Nat}
    (hidx : idx < apiKeys.length) :
    jsFalsyKey (apiKeys.get? idx) = false := by
  rw [List.get?_eq_get hidx]
  simp only [jsFalsyKey]
  exact beq_eq_false_iff_ne.mpr (hkeys _ (apiKeys.get_mem _ _))

lemma rotateLoop_succ (hkeys : ∀ k ∈ apiKeys, k ≠ "") (fuel i idx calls : Nat)
    (hidx : idx < apiKeys.length) :
    rotateLoop apiKeys attempt retryable rateLimited unexpected (fuel + 1) i idx calls =
      match attempt calls with
      | .ok r => (some r, (idx + 1) % apiKeys.length, calls + 1)
      | .error msg =>
        if retryable msg then
          if i == apiKeys.length - 1 then
            (some rateLimited, (idx + 1) % apiKeys.length, calls + 1)
          else
            rotateLoop apiKeys attempt retryable rateLimited unexpected fuel (i + 1)
              ((idx + 1) % apiKeys.length) (calls + 1)
        else (some (unexpected msg), (idx + 1) % apiKeys.length, calls + 1) := by
  rw [rotateLoop, getNextApiKey_of_lt apiKeys hidx]
  simp only [jsFalsyKey_of_goodPool apiKeys hkeys hidx, Bool.false_eq_true, if_false]

/-- Every iteration of the loop advances the cursor by one modulo the pool size
and makes exactly one upstream call, so the final cursor is the initial one
shifted by the number of calls made. -/
lemma rotateLoop_cursor (hkeys : ∀ k ∈ apiKeys, k ≠ "") :
    ∀ fuel i idx calls, idx < apiKeys.length →
      ∃ k,
        (rotateLoop apiKeys attempt retryable rateLimited unexpected fuel i idx calls).2.2 =
          calls + k ∧
        (rotateLoop apiKeys attempt retryable rateLimited unexpected fuel i idx calls).2.1 =
          (idx + k) % apiKeys.length := by
  intro fuel
  induction fuel with
  | zero =>
    intro i idx calls hidx
    exact ⟨0, rfl, by simp [rotateLoop, Nat.mod_eq_of_lt hidx]⟩
  | succ f ih =>
    intro i idx calls hidx
    have hlen : 0 < apiKeys.length := lt_of_le_of_lt (Nat.zero_le idx) hidx
    have hidx2 : (idx + 1) % apiKeys.length < apiKeys.length := Nat.mod_lt _ hlen
    rw [rotateLoop_succ apiKeys attempt retryable rateLimited unexpected hkeys f i idx calls hidx]
    cases hA : attempt calls with
    | ok r => exact ⟨1, rfl, rfl⟩
    | error msg =>
      by_cases hr : retryable msg = true
      · simp only [hr, if_true]
        by_cases hlast : (i == apiKeys.length - 1) = true
        · simp only [hlast, if_true]
          exact ⟨1, rfl, rfl⟩
        · simp only [Bool.not_eq_true] at hlast
          simp only [hlast, Bool.false_eq_true, if_false]
          obtain ⟨k, h1, h2⟩ := ih (i + 1) ((idx + 1) % apiKeys.length) (calls + 1) hidx2
          refine ⟨k + 1, by omega, ?_⟩
          rw [h2, Nat.mod_add_mod]
          congr 1
          omega
      · simp only [Bool.not_eq_true] at hr
        simp only [hr, Bool.false_eq_true, if_false]
        exact ⟨1, rfl, rfl⟩

/-- If every attempt in the window is a retryable error, the loop exhausts its
remaining iterations and returns the rate-limited result after exactly `fuel`
further upstream invocations. -/
lemma rotateLoop_allRetry (hkeys : ∀ k ∈ apiKeys, k ≠ "") :
    ∀ fuel i idx calls, 0 < fuel → fuel + i = apiKeys.length → idx < apiKeys.length →
      (∀ j, calls ≤ j → j < calls + fuel →
        ∃ msg, attempt j = .error msg ∧ retryable msg = true) →
      rotateLoop apiKeys attempt retryable rateLimited unexpected fuel i idx calls =
        (some rateLimited, (idx + fuel) % apiKeys.length, calls + fuel) := by
  intro fuel
  induction fuel with
  | zero => omega
  | succ f ih =>
    intro i idx calls _ htot hidx hall
    have hlen : 0 < apiKeys.length := lt_of_le_of_lt (Nat.zero_le idx) hidx
    have hidx2 : (idx + 1) % apiKeys.length < apiKeys.length := Nat.mod_lt _ hlen
    obtain ⟨msg, hmsg, hret⟩ := hall calls (Nat.le_refl _) (by omega)
    rw [rotateLoop_succ apiKeys attempt retryable rateLimited unexpected hkeys f i idx calls hidx]
    rw [hmsg]
    simp only [hret, if_true]
    by_cases hlast : i = apiKeys.length - 1
    · have hf : f = 0 := by omega
      subst hf
      simp only [hlast, beq_self_eq_true, if_true]
    · have hbeq : (i == apiKeys.length - 1) = false := beq_eq_false_iff_ne.mpr hlast
      simp only [hbeq, Bool.false_eq_true, if_false]
      rw [ih (i + 1) ((idx + 1) % apiKeys.length) (calls + 1) (by omega) (by omega) hidx2
        (fun j hj1 hj2 => hall j (by omega) (by omega))]
      simp only [Prod.mk.injEq, true_and]
      constructor
      · rw [Nat.mod_add_mod]
        congr 1
        omega
      · omega

/-- The loop always returns a result within its fuel, making at most `fuel`
further upstream invocations. -/
lemma rotateLoop_total (hkeys : ∀ k ∈ apiKeys, k ≠ "") :
    ∀ fuel i idx calls, 0 < fuel → fuel + i = apiKeys.length → idx < apiKeys.length →
      (rotateLoop apiKeys attempt retryable rateLimited unexpected fuel i idx calls).1.isSome =
        true ∧
      (rotateLoop apiKeys attempt retryable rateLimited unexpected fuel i idx calls).2.2 ≤
        calls + fuel := by
  intro fuel
  induction fuel with
  | zero => omega
  | succ f ih =>
    intro i idx calls _ htot hidx
    have hlen : 0 < apiKeys.length := lt_of_le_of_lt (Nat.zero_le idx) hidx
    have hidx2 : (idx + 1) % apiKeys.length < apiKeys.length := Nat.mod_lt _ hlen
    rw [rotateLoop_succ apiKeys attempt retryable rateLimited unexpected hkeys f i idx calls hidx]
    cases hA : attempt calls with
    | ok r => exact ⟨rfl, by show calls + 1 ≤ calls + (f + 1); omega⟩
    | error msg =>
      by_cases hr : retryable msg = true
      · simp only [hr, if_true]
        by_cases hlast : (i == apiKeys.length - 1) = true
        · simp only [hlast, if_true]
          exact ⟨rfl, by show calls + 1 ≤ calls + (f + 1); omega⟩
        · simp only [hlast, Bool.false_eq_true, if_false]
          have hne : i ≠ apiKeys.length - 1 := by
            intro h
            exact absurd (beq_iff_eq.mpr h) (by simp [hlast])
          obtain ⟨h1, h2⟩ := ih (i + 1) ((idx + 1) % apiKeys.length) (calls + 1)
            (by omega) (by omega) hidx2
          exact ⟨h1, by omega⟩
      · simp only [Bool.not_eq_true] at hr
        simp only [hr, Bool.false_eq_true, if_false]
        exact ⟨rfl, by show calls + 1 ≤ calls + (f + 1); omega⟩

/-- If the first `m` attempts are retryable errors and the next one is a
non-retryable error, the loop stops right there: the non-retryable failure is
returned after exactly `m + 1` further invocations. -/
lemma rotateLoop_stopAt (hkeys : ∀ k ∈ apiKeys, k ≠ "") :
    ∀ m fuel i idx calls msg, m < fuel → fuel + i = apiKeys.length →
      idx < apiKeys.length →
      (∀ j, calls ≤ j → j < calls + m →
        ∃ mg, attempt j = .error mg ∧ retryable mg = true) →
      attempt (calls + m) = .error msg → retryable msg = false →
      rotateLoop apiKeys attempt retryable rateLimited unexpected fuel i idx calls =
        (some (unexpected msg), (idx + m + 1) % apiKeys.length, calls + m + 1) := by
  intro m
  induction m with
  | zero =>
    intro fuel i idx calls msg hm htot hidx _ hmsg hnr
    obtain ⟨f, rfl⟩ : ∃ f, fuel = f + 1 := ⟨fuel - 1, by omega⟩
    rw [rotateLoop_succ apiKeys attempt retryable rateLimited unexpected hkeys f i idx calls hidx]
    rw [show calls + 0 = calls from rfl] at hmsg
    rw [hmsg]
    simp only [hnr, Bool.false_eq_true, if_false]
  | succ t ih =>
    intro fuel i idx calls msg hm htot hidx hpre hmsg hnr
    obtain ⟨f, rfl⟩ : ∃ f, fuel = f + 1 := ⟨fuel - 1, by omega⟩
    have hlen : 0 < apiKeys.length := lt_of_le_of_lt (Nat.zero_le idx) hidx
    have hidx2 : (idx + 1) % apiKeys.length < apiKeys.length := Nat.mod_lt _ hlen
    obtain ⟨mg, hmg, hret⟩ := hpre calls (Nat.le_refl _) (by omega)
    rw [rotateLoop_succ apiKeys attempt retryable rateLimited unexpected hkeys f i idx calls hidx]
    rw [hmg]
    simp only [hret, if_true]
    have hne : i ≠ apiKeys.length - 1 := by omega
    have hbeq : (i == apiKeys.length - 1) = false := beq_eq_false_iff_ne.mpr hne
    simp only [hbeq, Bool.false_eq_true, if_false]
    rw [ih f (i + 1) ((idx + 1) % apiKeys.length) (calls + 1) msg (by omega) (by omega) hidx2
      (fun j hj1 hj2 => hpre j (by omega) (by omega))
      (by rw [show calls + 1 + t = calls + (t + 1) from by omega]; exact hmsg) hnr]
    simp only [Prod.mk.injEq, true_and]
    constructor
    · rw [show (idx + 1) % apiKeys.length + t + 1 =
        (idx + 1) % apiKeys.length + (t + 1) from by omega, Nat.mod_add_mod]
      congr 1
      omega
    · omega

/-- If the attempt made right away succeeds with `r`, the loop returns `r`
after exactly one further invocation. -/
lemma rotateLoop_firstOk (hkeys : ∀ k ∈ apiKeys, k ≠ "") (fuel i idx calls : Nat)
    (r : ρ) (hf : 0 < fuel) (hidx : idx < apiKeys.length) (hA : attempt calls = .ok r) :
    rotateLoop apiKeys attempt retryable rateLimited unexpected fuel i idx calls =
      (some r, (idx + 1) % apiKeys.length, calls + 1) := by
  obtain ⟨f, rfl⟩ : ∃ f, fuel = f + 1 := ⟨fuel - 1, by omega⟩
  rw [rotateLoop_succ apiKeys attempt retryable rateLimited unexpected hkeys f i idx calls hidx]
  rw [hA]

end LoopLemmas

/-- The image component of the parts scan is the payload of the first
inline-data part. -/
lemma scanParts_fst : ∀ (acc : String) (ps : List RespPart),
    (scanParts acc ps).1 = firstInlinePart ps := by
  intro acc ps
  induction ps generalizing acc with
  | nil => rfl
  | cons p rest ih =>
    cases hd : p.inlineData with
    | some d =>
      by_cases hdata : d.data = ""
      · rw [show scanParts acc (p :: rest) = scanParts (acc ++ partTextStr p) rest from by
          simp [scanParts, hd, hdata]]
        rw [show firstInlinePart (p :: rest) = firstInlinePart rest from by
          simp [firstInlinePart, List.find?, hd, hdata]]
        exact ih _
      · have hb : (d.data != "") = true := by simpa using hdata
        simp [scanParts, firstInlinePart, List.find?, hd, hb]
    | none =>
      rw [show scanParts acc (p :: rest) = scanParts (acc ++ partTextStr p) rest from by
        simp [scanParts, hd]]
      rw [show firstInlinePart (p :: rest) = firstInlinePart rest from by
        simp [firstInlinePart, List.find?, hd]]
      exact ih _

/-- On a POST request with a valid body and a non-empty pool, the generate
handler is exactly the retry loop started at loop counter 0 with the current
cursor and zero calls. -/
lemma generateHandler_loop (apiKeys : List String) (c : Nat) (req : GenRequest)
    (upstream : Nat → Upstream GenResponse) (hm : req.method = "POST")
    (hne : apiKeys ≠ []) (hv : genInvalidBody req = false) :
    generateHandler apiKeys c req upstream =
      rotateLoop apiKeys (fun j => genAttempt (upstream j)) isRateLimitErrorGen
        GenResult.rateLimitExhausted genUnexpected apiKeys.length 0 c 0 := by
  simp [generateHandler, hm, hv, hne]

/-- Same bridging fact for the describe handler. -/
lemma describeHandler_loop (apiKeys : List String) (c : Nat) (req : DescRequest)
    (upstream : Nat → Upstream DescResponse) (hm : req.method = "POST")
    (hne : apiKeys ≠ []) (hv : descInvalidBody req = false) :
    describeHandler apiKeys c req upstream =
      rotateLoop apiKeys (fun j => descAttempt (upstream j)) isRetryableDesc
        DescResult.rateLimitExhausted descUnexpected apiKeys.length 0 c 0 := by
  simp [describeHandler, hm, hv, hne]

/-- The generate handler leaves the cursor at the initial cursor plus the
number of upstream invocations it made, modulo the pool size. -/
lemma generateHandler_cursor (apiKeys : List String) (c : Nat) (req : GenRequest)
    (upstream : Nat → Upstream GenResponse) (hkeys : ∀ k ∈ apiKeys, k ≠ "")
    (hc : c < apiKeys.length) :
    (generateHandler apiKeys c req upstream).2.1 =
      (c + (generateHandler apiKeys c req upstream).2.2) % apiKeys.length := by
  have hne : apiKeys ≠ [] :=
    List.length_pos.mp (lt_of_le_of_lt (Nat.zero_le c) hc)
  by_cases hm : req.method = "POST"
  · by_cases hv : genInvalidBody req = true
    · simp [generateHandler, hm, hv, hne, Nat.mod_eq_of_lt hc]
    · rw [generateHandler_loop apiKeys c req upstream hm hne
        (by simpa using hv)]
      obtain ⟨k, h1, h2⟩ := rotateLoop_cursor apiKeys (fun j => genAttempt (upstream j))
        isRateLimitErrorGen GenResult.rateLimitExhausted genUnexpected hkeys
        apiKeys.length 0 c 0 hc
      rw [h1, h2]
      congr 1
      omega
  · simp [generateHandler, hm, Nat.mod_eq_of_lt hc]

/-- The describe handler leaves the cursor at the initial cursor plus the
number of upstream invocations it made, modulo the pool size. -/
lemma describeHandler_cursor (apiKeys : List String) (c : Nat) (req : DescRequest)
    (upstream : Nat → Upstream DescResponse) (hkeys : ∀ k ∈ apiKeys, k ≠ "")
    (hc : c < apiKeys.length) :
    (describeHandler apiKeys c req upstream).2.1 =
      (c + (describeHandler apiKeys c req upstream).2.2) % apiKeys.length := by
  have hne : apiKeys ≠ [] :=
    List.length_pos.mp (lt_of_le_of_lt (Nat.zero_le c) hc)
  by_cases hm : req.method = "POST"
  · by_cases hv : descInvalidBody req = true
    · simp [describeHandler, hm, hv, hne, Nat.mod_eq_of_lt hc]
    · rw [describeHandler_loop apiKeys c req upstream hm hne
        (by simpa using hv)]
      obtain ⟨k, h1, h2⟩ := rotateLoop_cursor apiKeys (fun j => descAttempt (upstream j))
        isRetryableDesc DescResult.rateLimitExhausted descUnexpected hkeys
        apiKeys.length 0 c 0 hc
      rw [h1, h2]
      congr 1
      omega
  · simp [describeHandler, hm, Nat.mod_eq_of_lt hc]

/-- The generate handler always returns a result and makes at most
`apiKeys.length` upstream invocations. -/
lemma generateHandler_total (apiKeys : List String) (c : Nat) (req : GenRequest)
    (upstream : Nat → Upstream GenResponse) (hne : apiKeys ≠ [])
    (hkeys : ∀ k ∈ apiKeys, k ≠ "") (hc : c < apiKeys.length) :
    (generateHandler apiKeys c req upstream).1.isSome = true ∧
    (generateHandler apiKeys c req upstream).2.2 ≤ apiKeys.length := by
  by_cases hm : req.method = "POST"
  · by_cases hv : genInvalidBody req = true
    · simp [generateHandler, hm, hv, hne]
    · rw [generateHandler_loop apiKeys c req upstream hm hne (by simpa using hv)]
      have h := rotateLoop_total apiKeys (fun j => genAttempt (upstream j))
        isRateLimitErrorGen GenResult.rateLimitExhausted genUnexpected hkeys
        apiKeys.length 0 c 0 (List.length_pos.mpr hne) (by omega) hc
      exact ⟨h.1, by omega⟩
  · simp [generateHandler, hm]

/-- The describe handler always returns a result and makes at most
`apiKeys.length` upstream invocations. -/
lemma describeHandler_total (apiKeys : List String) (c : Nat) (req : DescRequest)
    (upstream : Nat → Upstream DescResponse) (hne : apiKeys ≠ [])
    (hkeys : ∀ k ∈ apiKeys, k ≠ "") (hc : c < apiKeys.length) :
    (describeHandler apiKeys c req upstream).1.isSome = true ∧
    (describeHandler apiKeys c req upstream).2.2 ≤ apiKeys.length := by
  by_cases hm : req.method = "POST"
  · by_cases hv : descInvalidBody req = true
    · simp [describeHandler, hm, hv, hne]
    · rw [describeHandler_loop apiKeys c req upstream hm hne (by simpa using hv)]
      have h := rotateLoop_total apiKeys (fun j => descAttempt (upstream j))
        isRetryableDesc DescResult.rateLimitExhausted descUnexpected hkeys
        apiKeys.length 0 c 0 (List.length_pos.mpr hne) (by omega) hc
      exact ⟨h.1, by omega⟩
  · simp [describeHandler, hm]

/-! ### Claim theorems -/

/-- C1: For every non-empty credential pool of size N, if every one of the N
upstream invocations made during a single execute call fails with a retryable
(rate-limit/quota) outcome, the call returns RateLimitExhausted (HTTP 429)
after exactly N upstream invocations, never more.  Proved for both handlers. -/
theorem claim1_allRetryableExhaustsPool
    (apiKeys : List String) (c : Nat) (greq : GenRequest) (dreq : DescRequest)
    (gup : Nat → Upstream GenResponse) (dup : Nat → Upstream DescResponse)
    (hne : apiKeys ≠ []) (hkeys : ∀ k ∈ apiKeys, k ≠ "") (hc : c < apiKeys.length)
    (hgm : greq.method = "POST") (hgv : genInvalidBody greq = false)
    (hdm : dreq.method = "POST") (hdv : descInvalidBody dreq = false)
    (hg : ∀ j < apiKeys.length, ∃ msg, genAttempt (gup j) = .error msg ∧
      isRateLimitErrorGen msg = true)
    (hd : ∀ j < apiKeys.length, ∃ msg, descAttempt (dup j) = .error msg ∧
      isRateLimitErrorDesc msg = true) :
    (generateHandler apiKeys c greq gup).1 = some GenResult.rateLimitExhausted ∧
    (generateHandler apiKeys c greq gup).2.2 = apiKeys.length ∧
    GenResult.status GenResult.rateLimitExhausted = 429 ∧
    (describeHandler apiKeys c dreq dup).1 = some DescResult.rateLimitExhausted ∧
    (describeHandler apiKeys c dreq dup).2.2 = apiKeys.length ∧
    DescResult.status DescResult.rateLimitExhausted = 429 := by
  have hpos : 0 < apiKeys.length := List.length_pos.mpr hne
  have hgen := rotateLoop_allRetry apiKeys (fun j => genAttempt (gup j))
    isRateLimitErrorGen GenResult.rateLimitExhausted genUnexpected hkeys
    apiKeys.length 0 c 0 hpos (by omega) hc
    (fun j _ hj2 => hg j (by omega))
  have hdesc := rotateLoop_allRetry apiKeys (fun j => descAttempt (dup j))
    isRetryableDesc DescResult.rateLimitExhausted descUnexpected hkeys
    apiKeys.length 0 c 0 hpos (by omega) hc
    (fun j _ hj2 => by
      obtain ⟨msg, h1, h2⟩ := hd j (by omega)
      exact ⟨msg, h1, by simp [isRetryableDesc, h2]⟩)
  rw [generateHandler_loop apiKeys c greq gup hgm hne hgv, hgen,
    describeHandler_loop apiKeys c dreq dup hdm hne hdv, hdesc]
  refine ⟨rfl, ?_, rfl, rfl, ?_, rfl⟩
  · show 0 + apiKeys.length = apiKeys.length
    omega
  · show 0 + apiKeys.length = apiKeys.length
    omega

/-- Witness for C1 at a concrete input: two keys, both upstream invocations
fail with a 429 message, both handlers return 429 after 2 invocations. -/
theorem claim1_witness :
    (generateHandler ["alpha", "beta"] 0 ⟨"POST", some "p", some [()]⟩
      (fun _ => .threw "429")).1 = some GenResult.rateLimitExhausted ∧
    (generateHandler ["alpha", "beta"] 0 ⟨"POST", some "p", some [()]⟩
      (fun _ => .threw "429")).2.2 = (["alpha", "beta"] : List String).length ∧
    GenResult.status GenResult.rateLimitExhausted = 429 ∧
    (describeHandler ["alpha", "beta"] 0 ⟨"POST", some ()⟩
      (fun _ => .threw "429")).1 = some DescResult.rateLimitExhausted ∧
    (describeHandler ["alpha", "beta"] 0 ⟨"POST", some ()⟩
      (fun _ => .threw "429")).2.2 = (["alpha", "beta"] : List String).length ∧
    DescResult.status DescResult.rateLimitExhausted = 429 :=
  claim1_allRetryableExhaustsPool ["alpha", "beta"] 0
    ⟨"POST", some "p", some [()]⟩ ⟨"POST", some ()⟩
    (fun _ => .threw "429") (fun _ => .threw "429")
    (by decide) (by decide) (by decide) rfl (by decide) rfl (by decide)
    (fun j _ => ⟨"429", rfl, by decide⟩)
    (fun j _ => ⟨"429", rfl, by decide⟩)

/-- C2 counterexample: in the describe handler a failure whose message is
"permission denied" is not a rate-limit/quota signal, yet the handler does not
return it: it invokes the upstream again with the remaining credential (2
invocations) and returns the second attempt result. -/
theorem claim2_counterexample :
    isRateLimitErrorDesc "permission denied" = false ∧
    isRateLimitErrorGen "permission denied" = false ∧
    (describeHandler ["a", "b"] 0 ⟨"POST", some ()⟩
      (fun j => if j == 0 then .threw "permission denied"
        else .ok ⟨some "ok"⟩)).2.2 = 2 ∧
    (describeHandler ["a", "b"] 0 ⟨"POST", some ()⟩
      (fun j => if j == 0 then .threw "permission denied"
        else .ok ⟨some "ok"⟩)).1 = some (DescResult.success "ok") := by
  refine ⟨by decide, by decide, by decide, by decide⟩

/-- C2 amended: in the generate handler a failure is retryable exactly when
`isRateLimitErrorGen` accepts its message (contains "429", or lowercased
contains "resource has been exhausted"); in the describe handler a failure is
retryable exactly when `isRetryableDesc` accepts its lowercased message (the
rate-limit markers, or "api key not valid" / "permission denied" / "500" /
"503" / "service unavailable").  In both handlers a non-retryable failure is
returned to the caller immediately after the attempt that produced it, with no
further upstream invocation. -/
theorem claim2_amended_nonRetryableStopsImmediately
    (apiKeys : List String) (c m : Nat) (greq : GenRequest) (dreq : DescRequest)
    (gup : Nat → Upstream GenResponse) (dup : Nat → Upstream DescResponse)
    (gmsg dmsg : String)
    (hne : apiKeys ≠ []) (hkeys : ∀ k ∈ apiKeys, k ≠ "") (hc : c < apiKeys.length)
    (hgm : greq.method = "POST") (hgv : genInvalidBody greq = false)
    (hdm : dreq.method = "POST") (hdv : descInvalidBody dreq = false)
    (hm : m < apiKeys.length)
    (hgpre : ∀ j < m, ∃ mg, genAttempt (gup j) = .error mg ∧
      isRateLimitErrorGen mg = true)
    (hgstop : genAttempt (gup m) = .error gmsg)
    (hgnr : isRateLimitErrorGen gmsg = false)
    (hdpre : ∀ j < m, ∃ mg, descAttempt (dup j) = .error mg ∧
      isRetryableDesc mg = true)
    (hdstop : descAttempt (dup m) = .error dmsg)
    (hdnr : isRetryableDesc dmsg = false) :
    generateHandler apiKeys c greq gup =
      (some (genUnexpected gmsg), (c + m + 1) % apiKeys.length, m + 1) ∧
    describeHandler apiKeys c dreq dup =
      (some (descUnexpected dmsg), (c + m + 1) % apiKeys.length, m + 1) := by
  have hgen := rotateLoop_stopAt apiKeys (fun j => genAttempt (gup j))
    isRateLimitErrorGen GenResult.rateLimitExhausted genUnexpected hkeys
    m apiKeys.length 0 c 0 gmsg hm (by omega) hc
    (fun j _ hj2 => hgpre j (by omega))
    (by rw [Nat.zero_add]; exact hgstop) hgnr
  have hdesc := rotateLoop_stopAt apiKeys (fun j => descAttempt (dup j))
    isRetryableDesc DescResult.rateLimitExhausted descUnexpected hkeys
    m apiKeys.length 0 c 0 dmsg hm (by omega) hc
    (fun j _ hj2 => hdpre j (by omega))
    (by rw [Nat.zero_add]; exact hdstop) hdnr
  rw [Nat.zero_add] at hgen hdesc
  rw [generateHandler_loop apiKeys c greq gup hgm hne hgv,
    describeHandler_loop apiKeys c dreq dup hdm hne hdv]
  exact ⟨hgen, hdesc⟩

/-- Witness for the amended C2: two keys, the first attempt fails with a
message that neither classifier retries, both handlers stop after exactly one
upstream invocation. -/
theorem claim2_witness :
    generateHandler ["a", "b"] 0 ⟨"POST", some "p", some [()]⟩
      (fun _ => .threw "boom") =
      (some (genUnexpected "boom"), (0 + 0 + 1) % (["a", "b"] : List String).length,
        0 + 1) ∧
    describeHandler ["a", "b"] 0 ⟨"POST", some ()⟩ (fun _ => .threw "boom") =
      (some (descUnexpected "boom"), (0 + 0 + 1) % (["a", "b"] : List String).length,
        0 + 1) :=
  claim2_amended_nonRetryableStopsImmediately ["a", "b"] 0 0
    ⟨"POST", some "p", some [()]⟩ ⟨"POST", some ()⟩
    (fun _ => .threw "boom") (fun _ => .threw "boom") "boom" "boom"
    (by decide) (by decide) (by decide) rfl (by decide) rfl (by decide) (by decide)
    (fun j hj => absurd hj (Nat.not_lt_zero j)) rfl (by decide)
    (fun j hj => absurd hj (Nat.not_lt_zero j)) rfl (by decide)

/-- C3: one credential selection on cursor c returns pool[c] and leaves the
cursor at (c+1) mod N; the cursor is advanced exactly once per upstream
attempt, so after an execute call that made k attempts the cursor equals
(c+k) mod N, for both handlers. -/
theorem claim3_roundRobinCursor
    (apiKeys : List String) (c : Nat) (greq : GenRequest) (dreq : DescRequest)
    (gup : Nat → Upstream GenResponse) (dup : Nat → Upstream DescResponse)
    (hkeys : ∀ k ∈ apiKeys, k ≠ "") (hc : c < apiKeys.length) :
    (getNextApiKey apiKeys c).1 = some (apiKeys.get ⟨c, hc⟩) ∧
    (getNextApiKey apiKeys c).2 = (c + 1) % apiKeys.length ∧
    (generateHandler apiKeys c greq gup).2.1 =
      (c + (generateHandler apiKeys c greq gup).2.2) % apiKeys.length ∧
    (describeHandler apiKeys c dreq dup).2.1 =
      (c + (describeHandler apiKeys c dreq dup).2.2) % apiKeys.length := by
  refine ⟨?_, ?_, generateHandler_cursor apiKeys c greq gup hkeys hc,
    describeHandler_cursor apiKeys c dreq dup hkeys hc⟩
  · rw [getNextApiKey_of_lt apiKeys hc]
    exact List.get?_eq_get hc
  · rw [getNextApiKey_of_lt apiKeys hc]

/-- Witness for C3 at a concrete input: three keys, cursor 1, two retryable
failures then a success; the selection returns the second key and both
handlers leave the cursor at (1 + 3) mod 3 = 1. -/
theorem claim3_witness :
    (getNextApiKey ["a", "b", "cc"] 1).1 =
      some ((["a", "b", "cc"] : List String).get ⟨1, by decide⟩) ∧
    (getNextApiKey ["a", "b", "cc"] 1).2 = (1 + 1) % (["a", "b", "cc"] : List String).length ∧
    (generateHandler ["a", "b", "cc"] 1 ⟨"POST", some "p", some [()]⟩
      (fun j => if j ≤ 1 then .threw "429"
        else .ok ⟨[⟨none, [⟨some ⟨"IMG", "image/png"⟩, none⟩]⟩]⟩)).2.1 =
      (1 + (generateHandler ["a", "b", "cc"] 1 ⟨"POST", some "p", some [()]⟩
        (fun j => if j ≤ 1 then .threw "429"
          else .ok ⟨[⟨none, [⟨some ⟨"IMG", "image/png"⟩, none⟩]⟩]⟩)).2.2) %
        (["a", "b", "cc"] : List String).length ∧
    (describeHandler ["a", "b", "cc"] 1 ⟨"POST", some ()⟩
      (fun j => if j ≤ 1 then .threw "429" else .ok ⟨some "ok"⟩)).2.1 =
      (1 + (describeHandler ["a", "b", "cc"] 1 ⟨"POST", some ()⟩
        (fun j => if j ≤ 1 then .threw "429" else .ok ⟨some "ok"⟩)).2.2) %
        (["a", "b", "cc"] : List String).length :=
  claim3_roundRobinCursor ["a", "b", "cc"] 1 ⟨"POST", some "p", some [()]⟩
    ⟨"POST", some ()⟩
    (fun j => if j ≤ 1 then .threw "429"
      else .ok ⟨[⟨none, [⟨some ⟨"IMG", "image/png"⟩, none⟩]⟩]⟩)
    (fun j => if j ≤ 1 then .threw "429" else .ok ⟨some "ok"⟩)
    (by decide) (by decide)

/-- C4: on a POST request with an empty credential pool, both handlers return
ConfigurationError (HTTP 500) immediately, perform zero upstream invocations,
and leave the cursor untouched.  (A non-POST request is answered 405 before
the pool check: see C9.) -/
theorem claim4_emptyPoolConfigError (c : Nat) (greq : GenRequest)
    (dreq : DescRequest) (gup : Nat → Upstream GenResponse)
    (dup : Nat → Upstream DescResponse)
    (hgm : greq.method = "POST") (hdm : dreq.method = "POST") :
    generateHandler [] c greq gup = (some GenResult.configError, c, 0) ∧
    GenResult.status GenResult.configError = 500 ∧
    describeHandler [] c dreq dup = (some DescResult.configError, c, 0) ∧
    DescResult.status DescResult.configError = 500 := by
  refine ⟨?_, rfl, ?_, rfl⟩
  · simp [generateHandler, hgm]
  · simp [describeHandler, hdm]

/-- Witness for C4 at a concrete input. -/
theorem claim4_witness :
    generateHandler [] 0 ⟨"POST", some "p", some [()]⟩ (fun _ => .threw "429") =
      (some GenResult.configError, 0, 0) ∧
    GenResult.status GenResult.configError = 500 ∧
    describeHandler [] 0 ⟨"POST", some ()⟩ (fun _ => .threw "429") =
      (some DescResult.configError, 0, 0) ∧
    DescResult.status DescResult.configError = 500 :=
  claim4_emptyPoolConfigError 0 ⟨"POST", some "p", some [()]⟩ ⟨"POST", some ()⟩
    (fun _ => .threw "429") (fun _ => .threw "429") rfl rfl

/-- C5: over a non-empty pool of size N, for every request and every sequence
of upstream outcomes each handler performs at most N upstream invocations and
returns exactly one terminal result (the embedding returns a single value by
construction; `isSome` rules out the handler falling off the loop without
responding). -/
theorem claim5_oneTerminalResult
    (apiKeys : List String) (c : Nat) (greq : GenRequest) (dreq : DescRequest)
    (gup : Nat → Upstream GenResponse) (dup : Nat → Upstream DescResponse)
    (hne : apiKeys ≠ []) (hkeys : ∀ k ∈ apiKeys, k ≠ "")
    (hc : c < apiKeys.length) :
    ((generateHandler apiKeys c greq gup).1.isSome = true ∧
      (generateHandler apiKeys c greq gup).2.2 ≤ apiKeys.length) ∧
    ((describeHandler apiKeys c dreq dup).1.isSome = true ∧
      (describeHandler apiKeys c dreq dup).2.2 ≤ apiKeys.length) :=
  ⟨generateHandler_total apiKeys c greq gup hne hkeys hc,
    describeHandler_total apiKeys c dreq dup hne hkeys hc⟩

/-- Witness for C5 at a concrete input: one key, upstream always throws an
unclassifiable error. -/
theorem claim5_witness :
    ((generateHandler ["k1"] 0 ⟨"POST", some "p", some [()]⟩
        (fun _ => .threw "boom")).1.isSome = true ∧
      (generateHandler ["k1"] 0 ⟨"POST", some "p", some [()]⟩
        (fun _ => .threw "boom")).2.2 ≤ (["k1"] : List String).length) ∧
    ((describeHandler ["k1"] 0 ⟨"POST", some ()⟩
        (fun _ => .threw "boom")).1.isSome = true ∧
      (describeHandler ["k1"] 0 ⟨"POST", some ()⟩
        (fun _ => .threw "boom")).2.2 ≤ (["k1"] : List String).length) :=
  claim5_oneTerminalResult ["k1"] 0 ⟨"POST", some "p", some [()]⟩ ⟨"POST", some ()⟩
    (fun _ => .threw "boom") (fun _ => .threw "boom")
    (by decide) (by decide) (by decide)

/-- C6: for a non-empty pool of any size, if the first credential tried yields
a successful upstream outcome, each handler performs exactly 1 upstream
invocation and returns that success; no further credentials are tried. -/
theorem claim6_firstSuccessOneCall
    (apiKeys : List String) (c : Nat) (greq : GenRequest) (dreq : DescRequest)
    (gup : Nat → Upstream GenResponse) (dup : Nat → Upstream DescResponse)
    (b mt t : String)
    (hne : apiKeys ≠ []) (hkeys : ∀ k ∈ apiKeys, k ≠ "") (hc : c < apiKeys.length)
    (hgm : greq.method = "POST") (hgv : genInvalidBody greq = false)
    (hdm : dreq.method = "POST") (hdv : descInvalidBody dreq = false)
    (hgok : genAttempt (gup 0) = .ok (GenResult.success b mt))
    (hdok : descAttempt (dup 0) = .ok (DescResult.success t)) :
    generateHandler apiKeys c greq gup =
      (some (GenResult.success b mt), (c + 1) % apiKeys.length, 1) ∧
    describeHandler apiKeys c dreq dup =
      (some (DescResult.success t), (c + 1) % apiKeys.length, 1) := by
  rw [generateHandler_loop apiKeys c greq gup hgm hne hgv,
    describeHandler_loop apiKeys c dreq dup hdm hne hdv]
  constructor
  · exact rotateLoop_firstOk apiKeys (fun j => genAttempt (gup j))
      isRateLimitErrorGen GenResult.rateLimitExhausted genUnexpected hkeys
      apiKeys.length 0 c 0 (GenResult.success b mt)
      (List.length_pos.mpr hne) hc hgok
  · exact rotateLoop_firstOk apiKeys (fun j => descAttempt (dup j))
      isRetryableDesc DescResult.rateLimitExhausted descUnexpected hkeys
      apiKeys.length 0 c 0 (DescResult.success t)
      (List.length_pos.mpr hne) hc hdok

/-- Witness for C6 at a concrete input: three keys, cursor 2 (so the selection
wraps), first upstream outcome succeeds; both handlers stop after one call. -/
theorem claim6_witness :
    generateHandler ["a", "b", "cc"] 2 ⟨"POST", some "p", some [()]⟩
      (fun _ => .ok ⟨[⟨none, [⟨some ⟨"IMG", "image/png"⟩, none⟩]⟩]⟩) =
      (some (GenResult.success "IMG" "image/png"),
        (2 + 1) % (["a", "b", "cc"] : List String).length, 1) ∧
    describeHandler ["a", "b", "cc"] 2 ⟨"POST", some ()⟩
      (fun _ => .ok ⟨some "a nice view"⟩) =
      (some (DescResult.success "a nice view"),
        (2 + 1) % (["a", "b", "cc"] : List String).length, 1) :=
  claim6_firstSuccessOneCall ["a", "b", "cc"] 2 ⟨"POST", some "p", some [()]⟩
    ⟨"POST", some ()⟩
    (fun _ => .ok ⟨[⟨none, [⟨some ⟨"IMG", "image/png"⟩, none⟩]⟩]⟩)
    (fun _ => .ok ⟨some "a nice view"⟩) "IMG" "image/png" "a nice view"
    (by decide) (by decide) (by decide) rfl (by decide) rfl (by decide) rfl rfl

/-- C7: the parsed credential pool is the comma-separated entries of the
configuration string with surrounding whitespace trimmed and empty entries
discarded, so every element of the pool is a non-empty string. -/
theorem claim7_parsedPoolTrimmedNonempty (pool fallback : Option String) :
    apiKeysFromEnv pool fallback = specParsedPool (configString pool fallback) ∧
    ∀ k ∈ apiKeysFromEnv pool fallback, k ≠ "" := by
  refine ⟨rfl, ?_⟩
  intro k hk
  simp only [apiKeysFromEnv, parseApiKeys] at hk
  have h := (List.mem_filter.mp hk).2
  simpa using h

/-- C8: a successful upstream response is passed through unmodified: the
generate handler returns the base64 bytes and mime type of the first
inline-data part, and the describe handler returns the response text. -/
theorem claim8_successPayloadUnmodified (resp : GenResponse)
    (candidate : Candidate) (d : InlineData) (dresp : DescResponse) (t : String)
    (hcand : resp.candidates.head? = some candidate)
    (hsafe : candidate.finishReason ≠ some "SAFETY")
    (hfind : firstInlinePart candidate.parts = some d)
    (ht : dresp.text = some t) (htne : t ≠ "") :
    genTryBody resp = .ok (GenResult.success d.data d.mimeType) ∧
    descTryBody dresp = .ok (DescResult.success t) := by
  constructor
  · have hsafe2 : (candidate.finishReason == some "SAFETY") = false :=
      beq_eq_false_iff_ne.mpr hsafe
    rcases hsp : scanParts "" candidate.parts with ⟨img, txt⟩
    have himg : img = some d := by
      have h2 := scanParts_fst "" candidate.parts
      rw [hsp, hfind] at h2
      exact h2
    subst himg
    simp only [genTryBody, hcand, hsafe2, Bool.false_eq_true, if_false, hsp]
  · simp [descTryBody, ht, jsTruthy, htne]

/-- Witness for C8 at a concrete input: a response whose candidate carries a
text part followed by an inline image part, and a describe response with text. -/
theorem claim8_witness :
    genTryBody ⟨[⟨none, [⟨none, some "note"⟩, ⟨some ⟨"IMG", "image/png"⟩, some "x"⟩]⟩]⟩ =
      .ok (GenResult.success (InlineData.data ⟨"IMG", "image/png"⟩)
        (InlineData.mimeType ⟨"IMG", "image/png"⟩)) ∧
    descTryBody ⟨some "desc"⟩ = .ok (DescResult.success "desc") :=
  claim8_successPayloadUnmodified
    ⟨[⟨none, [⟨none, some "note"⟩, ⟨some ⟨"IMG", "image/png"⟩, some "x"⟩]⟩]⟩
    ⟨none, [⟨none, some "note"⟩, ⟨some ⟨"IMG", "image/png"⟩, some "x"⟩]⟩
    ⟨"IMG", "image/png"⟩ ⟨some "desc"⟩ "desc"
    rfl (by decide) (by decide) rfl (by decide)

/-- C9: a request whose method is not POST is answered 405 by both handlers
before any other check: the pool and body are never consulted, no upstream
invocation occurs, and the cursor is unchanged. -/
theorem claim9_nonPost405
    (apiKeys : List String) (c : Nat) (greq : GenRequest) (dreq : DescRequest)
    (gup : Nat → Upstream GenResponse) (dup : Nat → Upstream DescResponse)
    (hg : greq.method ≠ "POST") (hd : dreq.method ≠ "POST") :
    generateHandler apiKeys c greq gup = (some GenResult.methodNotAllowed, c, 0) ∧
    GenResult.status GenResult.methodNotAllowed = 405 ∧
    describeHandler apiKeys c dreq dup = (some DescResult.methodNotAllowed, c, 0) ∧
    DescResult.status DescResult.methodNotAllowed = 405 := by
  refine ⟨?_, rfl, ?_, rfl⟩
  · simp [generateHandler, hg]
  · simp [describeHandler, hd]

/-- Witness for C9 at a concrete input: a GET request with an empty pool and an
invalid body is still answered 405. -/
theorem claim9_witness :
    generateHandler [] 0 ⟨"GET", none, none⟩ (fun _ => .threw "429") =
      (some GenResult.methodNotAllowed, 0, 0) ∧
    GenResult.status GenResult.methodNotAllowed = 405 ∧
    describeHandler [] 0 ⟨"GET", none⟩ (fun _ => .threw "429") =
      (some DescResult.methodNotAllowed, 0, 0) ∧
    DescResult.status DescResult.methodNotAllowed = 405 :=
  claim9_nonPost405 [] 0 ⟨"GET", none, none⟩ ⟨"GET", none⟩
    (fun _ => .threw "429") (fun _ => .threw "429") (by decide) (by decide)

/-- C10: with a non-empty pool (of non-empty keys, as parsing guarantees) and a
cursor in range, `getNextApiKey` never returns null, the defensive
`if (!apiKey) continue` guard can never fire, and the updated cursor stays in
[0, pool length). -/
theorem claim10_getNextApiKeyNeverNull (apiKeys : List String) (c : Nat)
    (hne : apiKeys ≠ []) (hc : c < apiKeys.length)
    (hkeys : ∀ k ∈ apiKeys, k ≠ "") :
    (getNextApiKey apiKeys c).1 ≠ none ∧
    jsFalsyKey (getNextApiKey apiKeys c).1 = false ∧
    (getNextApiKey apiKeys c).2 < apiKeys.length := by
  rw [getNextApiKey_of_lt apiKeys hc]
  refine ⟨?_, jsFalsyKey_of_goodPool apiKeys hkeys hc,
    Nat.mod_lt _ (List.length_pos.mpr hne)⟩
  rw [List.get?_eq_get hc]
  simp

/-- Witness for C10 at a concrete input. -/
theorem claim10_witness :
    (getNextApiKey ["x", "y"] 1).1 ≠ none ∧
    jsFalsyKey (getNextApiKey ["x", "y"] 1).1 = false ∧
    (getNextApiKey ["x", "y"] 1).2 < (["x", "y"] : List String).length :=
  claim10_getNextApiKeyNeverNull ["x", "y"] 1 (by decide) (by decide) (by decide)

end ImageAI
